import Mathlib

/-!
Verification of the DesktopBluetoothKeyboard BLE HID transport core.

The definitions below are a shallow embedding of the Python sources
`bluetooth_keyboard.py` (namespace `BK`, the bleak-backed service) and
`bluetooth_keyboard_simpleble.py` (namespace `SB`, the SimpleBLE-backed
service).  Python strings are modelled as Lean `String`s (sequences of
Unicode scalar values), Python integers as `Nat`, fallible Python code as
`Except PyErr`.  The relevant Python builtins (`str.upper`, `str.lower`,
`ord`, string comparison, substring/membership tests) are modelled
explicitly; each model is exact on the inputs the theorems quantify over,
as documented at its definition.
-/

/-- Python exception kinds raised by the code under study. -/
inductive PyErr where
  | typeError
  | valueError
deriving Repr, DecidableEq

deriving instance DecidableEq for Except

/-- Model of Python `str.upper` on one code point (full Unicode case
mapping, which may return several code points).  Exact on ASCII and on the
non-ASCII points exercised in this development: U+0131 ı → "I",
U+017F ſ → "S", U+00DF ß → "SS".  Identity elsewhere; every theorem that
quantifies over characters is scoped to the region where this model is
exact. -/
def pyUpperChar (c : Char) : List Char :=
  if 97 ≤ c.toNat ∧ c.toNat ≤ 122 then [Char.ofNat (c.toNat - 32)]
  else if c.toNat = 0x131 then [Char.ofNat 73]
  else if c.toNat = 0x17F then [Char.ofNat 83]
  else if c.toNat = 0xDF then [Char.ofNat 83, Char.ofNat 83]
  else [c]

/-- Model of Python `str.upper`. -/
def pyUpper (s : String) : String :=
  ⟨s.data.flatMap pyUpperChar⟩

/-- Model of Python `str.lower` on one code point.  Exact on ASCII;
identity elsewhere (every string compared against the lowercase ASCII
patterns "report", "2a4d", "2a4b", "1812", "hid", "write" in the theorems
is either concrete ASCII data or only ever compared through this same
model on both sides of an equivalence). -/
def pyLowerChar (c : Char) : Char :=
  if 65 ≤ c.toNat ∧ c.toNat ≤ 90 then Char.ofNat (c.toNat + 32) else c

/-- Model of Python `str.lower`. -/
def pyLower (s : String) : String :=
  ⟨s.data.map pyLowerChar⟩

/-- Python lexicographic string order (`<=`) on code points, on the
underlying character lists. -/
def pyListLe : List Char → List Char → Bool
  | [], _ => true
  | _ :: _, [] => false
  | a :: as, b :: bs =>
    if a.toNat < b.toNat then true
    else if b.toNat < a.toNat then false
    else pyListLe as bs

/-- Python string comparison `a <= b`. -/
def pyStrLe (a b : String) : Bool :=
  pyListLe a.data b.data

/-- Python `ord`: the code point of a length-1 string, `TypeError`
otherwise. -/
def pyOrd (s : String) : Except PyErr Nat :=
  match s.data with
  | [c] => .ok c.toNat
  | _ => .error .typeError

/-- Whether the first list is an initial segment of the second. -/
def leadMatch : List Char → List Char → Bool
  | [], _ => true
  | _ :: _, [] => false
  | a :: as, b :: bs => a == b && leadMatch as bs

/-- Whether the first list occurs contiguously inside the second. -/
def pyInList (needle : List Char) : List Char → Bool
  | [] => needle.isEmpty
  | c :: t => leadMatch needle (c :: t) || pyInList needle t

/-- Python substring test `needle in hay` for strings. -/
def pyInStr (needle hay : String) : Bool :=
  pyInList needle.data hay.data

/-- Python `str(b)` for a boolean `b`. -/
def pyStrOfBool (b : Bool) : String :=
  if b then "True" else "False"

/-- Model of Python `str.isupper` on one code point, exact on ASCII and on
the non-ASCII points exercised here ('ı' is lowercase, so `False` is
exact there as well). -/
def pyIsUpperChar (c : Char) : Bool :=
  65 ≤ c.toNat ∧ c.toNat ≤ 90

/-- Whether a code point is cased, in the ASCII-exact model backing
`pyIsUpperStr`. -/
def pyIsCasedChar (c : Char) : Bool :=
  (65 ≤ c.toNat ∧ c.toNat ≤ 90) ∨ (97 ≤ c.toNat ∧ c.toNat ≤ 122)

/-- Model of Python `str.isupper` on a string: at least one cased
character and no cased character is lowercase. -/
def pyIsUpperStr (s : String) : Bool :=
  s.data.any pyIsCasedChar && s.data.all (fun c => !pyIsCasedChar c || pyIsUpperChar c)

namespace BK

/-! ## `bluetooth_keyboard.py` (bleak backend), class `BluetoothKeyboardService` -/

/-- `BluetoothKeyboardService.HID_SERVICE_UUID`. -/
def HID_SERVICE_UUID : String := "00001812-0000-1000-8000-00805f9b34fb"

/-- The key/value pairs of the `special_chars` dict of
`_char_to_hid_code` (lines 219-235), in source order; every key is a
length-1 string, so the dict is keyed on characters (39 is the
apostrophe, 96 the backquote). -/
def special_pairs : List (Char × Nat) :=
  [(' ', 44), ('\n', 40), ('\r', 40), ('\t', 43), ('-', 45), ('=', 46),
   ('[', 47), (']', 48), ('\\', 49), (';', 51), (Char.ofNat 39, 52),
   (Char.ofNat 96, 53), (',', 54), ('.', 55), ('/', 56)]

/-- `special_chars[c]` as a dict lookup on the key/value pairs. -/
def specialCharLookup (c : Char) : Option Nat :=
  (special_pairs.find? (fun p => p.1 == c)).map (·.2)

/-- `special_chars.get(char)`: `None` for every string that is not one of
the dict's length-1 keys. -/
def special_chars (s : String) : Option Nat :=
  match s.data with
  | [c] => specialCharLookup c
  | _ => none

/-- `BluetoothKeyboardService._char_to_hid_code` (lines 202-237).  The
Python function can raise `TypeError` when `ord` is applied to a string
whose `upper()` has length ≠ 1, hence the `Except`. -/
def char_to_hid_code (ch : String) : Except PyErr (Option Nat) :=
  let char_upper := pyUpper ch
  if pyStrLe "A" char_upper && pyStrLe char_upper "Z" then do
    let n ← pyOrd char_upper
    return some (n - 65 + 4)
  else if pyStrLe "0" ch && pyStrLe ch "9" then
    if ch = "0" then return some 39
    else do
      let n ← pyOrd ch
      return some (n - 48 + 30)
  else
    return special_chars ch

/-- The shifted-punctuation string literal of `send_character`
(line 317): `!@#$%^&*()_+{}|:"<>?`. -/
def shiftedPunctuation : String :=
  ⟨['!', '@', '#', '$', '%', '^', '&', '*', '(', ')', '_', '+',
    Char.ofNat 123, Char.ofNat 125, '|', ':', Char.ofNat 34, '<', '>', '?']⟩

/-- The modifier computed by `send_character` (lines 316-318):
`2` (Left Shift) iff `char.isupper()` or `char` occurs in the
shifted-punctuation string. -/
def send_modifier (ch : String) : Nat :=
  if pyIsUpperStr ch || pyInStr ch shiftedPunctuation then 2 else 0

/-- A bleak GATT characteristic as seen by `connect`/`send_key`: its UUID
string, its `properties` list of property name strings, and its integer
`handle`. -/
structure GattCharacteristic where
  uuid : String
  properties : List String
  handle : Int
deriving Repr, DecidableEq

/-- A bleak GATT service: UUID string plus characteristics. -/
structure GattService where
  uuid : String
  characteristics : List GattCharacteristic
deriving Repr, DecidableEq

/-- The mutable fields of `BluetoothKeyboardService` relevant to the bleak
code path, together with the peer's service table (held by the live bleak
client in the source; the enumerations at lines 145, 258 and 274 all see
the same table). -/
structure ServiceState where
  client : Bool
  client_connected : Bool
  is_connected : Bool
  connected_device : Bool
  report_char_handle : Option Int
  services : List GattService
deriving Repr, DecidableEq

/-- The state produced by `__init__` (lines 78-82), with an empty service
table. -/
def initialState : ServiceState :=
  { client := false, client_connected := false, is_connected := false,
    connected_device := false, report_char_handle := none, services := [] }

/-- Python truthiness of `self.report_char_handle` (`None` and `0` are
falsy). -/
def handleTruthy : Option Int → Bool
  | none => false
  | some v => !(v == 0)

/-- Line 150: `self.HID_SERVICE_UUID.lower() in str(service.uuid).lower()`. -/
def isHidService (s : GattService) : Bool :=
  pyInStr (pyLower HID_SERVICE_UUID) (pyLower s.uuid)

/-- Line 158 predicate of the fallback scan: `"report" in uuid.lower() or
"2a4d" in uuid.lower()` (no writability requirement is checked here). -/
def fallbackCharMatch (c : GattCharacteristic) : Bool :=
  pyInStr "report" (pyLower c.uuid) || pyInStr "2a4d" (pyLower c.uuid)

/-- Lines 156-162: the nested fallback loop, returning the first
characteristic over all services (in order) matching `fallbackCharMatch`. -/
def fallbackScan : List GattService → Option GattCharacteristic
  | [] => none
  | s :: rest =>
    match s.characteristics.find? fallbackCharMatch with
    | some c => some c
    | none => fallbackScan rest

/-- Lines 166-169 predicate of the in-HID-service loop: UUID contains
`"report"`, `"2a4d"` or `"2a4b"`, and `"write"` or
`"write-without-response"` is in the properties list. -/
def primaryCharMatch (c : GattCharacteristic) : Bool :=
  (pyInStr "report" (pyLower c.uuid) || pyInStr "2a4d" (pyLower c.uuid)
      || pyInStr "2a4b" (pyLower c.uuid))
    && (c.properties.contains "write" || c.properties.contains "write-without-response")

/-- `BluetoothKeyboardService.connect`, bleak branch (lines 124-183),
modelled with the transport-level connect succeeding: the client is
created and connected, services are enumerated, and the resolution logic
of lines 144-179 runs.  Returns the new state and the boolean result. -/
def connect (st : ServiceState) (services : List GattService) : ServiceState × Bool :=
  let st := { st with client := true, client_connected := true, services := services }
  match services.find? isHidService with
  | none =>
    match fallbackScan services with
    | some c =>
      ({ st with report_char_handle := some c.handle, connected_device := true,
                 is_connected := true }, true)
    | none =>
      ({ st with connected_device := true, is_connected := true }, true)
  | some hid_service =>
    match hid_service.characteristics.find? primaryCharMatch with
    | some c =>
      ({ st with report_char_handle := some c.handle, connected_device := true,
                 is_connected := true }, true)
    | none =>
      ({ st with connected_device := true, is_connected := true }, true)

/-- `BluetoothKeyboardService.disconnect` (lines 185-200), bleak branch.
The backend call `await self.client.disconnect()` may raise; the second
component records whether it did.  When it raises, the exception
propagates and none of the state resets at lines 197-200 run. -/
def disconnect (st : ServiceState) (backendRaises : Bool) : ServiceState × Bool :=
  if st.client && st.client_connected then
    if backendRaises then (st, true)
    else ({ st with client := false, client_connected := false, is_connected := false,
                    connected_device := false, report_char_handle := none }, false)
  else
    ({ st with client := false, client_connected := false, is_connected := false,
               connected_device := false, report_char_handle := none }, false)

/-- `BluetoothKeyboardService._create_hid_report` (lines 239-245).
`bytearray` item assignment raises on a value outside `0..255`. -/
def create_hid_report (key_code : Nat) (modifier : Nat) : Except PyErr (List Nat) :=
  if key_code ≤ 255 && modifier ≤ 255 then
    .ok [modifier, 0, key_code, 0, 0, 0, 0, 0]
  else .error .valueError

/-- Whether a characteristic is writable per the dynamic-discovery check
of line 261: `"write" in char.properties or "write-without-response" in
char.properties`. -/
def writableProp (c : GattCharacteristic) : Bool :=
  c.properties.contains "write" || c.properties.contains "write-without-response"

/-- Lines 257-265: the dynamic-discovery double loop of `send_key`.  Each
service's first writable characteristic overwrites the handle; the outer
loop stops as soon as the stored handle is truthy. -/
def dynamicDiscovery : List GattService → Option Int → Option Int
  | [], h => h
  | s :: rest, h =>
    let h' := match s.characteristics.find? writableProp with
      | some c => some c.handle
      | none => h
    if handleTruthy h' then h' else dynamicDiscovery rest h'

/-- Line 274 loop body: the first characteristic whose handle equals the
stored one. -/
def findByHandle (services : List GattService) (h : Int) : Option GattCharacteristic :=
  (services.flatMap (·.characteristics)).find? (fun c => c.handle == h)

/-- `BluetoothKeyboardService.send_key`, bleak branch (lines 247-287),
modelled with the backend GATT write succeeding (the claims about
`send_key` are all under write-success hypotheses).  Returns the new
state, the boolean result, and the trace of reports submitted to
`write_gatt_char` (each paired with the `response` flag used). -/
def send_key (st : ServiceState) (key_code modifier : Nat) :
    ServiceState × Bool × List (List Nat × Bool) :=
  if !st.is_connected || !st.client then (st, false, [])
  else if !st.client_connected then (st, false, [])
  else
    let st :=
      if !handleTruthy st.report_char_handle then
        { st with report_char_handle := dynamicDiscovery st.services st.report_char_handle }
      else st
    match st.report_char_handle with
    | none => (st, false, [])
    | some hv =>
      if hv == 0 then (st, false, [])
      else
        match create_hid_report key_code modifier with
        | .error _ => (st, false, [])
        | .ok report =>
          match findByHandle st.services hv with
          | some c =>
            if c.properties.contains "write-without-response" then
              (st, true, [(report, false)])
            else if c.properties.contains "write" then
              (st, true, [(report, true)])
            else (st, true, [])
          | none => (st, false, [])

/-- `BluetoothKeyboardService.send_character` (lines 305-326).  Returns
the new state, the concatenated write trace of the two `send_key` calls,
and the diagnostics printed; raises whatever `_char_to_hid_code`
raises. -/
def send_character (st : ServiceState) (ch : String) :
    Except PyErr (ServiceState × List (List Nat × Bool) × List String) :=
  if ch.length == 0 then .ok (st, [], [])
  else do
    let kc ← char_to_hid_code ch
    match kc with
    | none => return (st, [], ["Unsupported character: " ++ ch])
    | some key_code =>
      let modifier := send_modifier ch
      let (st1, _r1, w1) := send_key st key_code modifier
      let (st2, _r2, w2) := send_key st1 0 0
      return (st2, w1 ++ w2, [])

end BK

namespace SB

/-! ## `bluetooth_keyboard_simpleble.py`, class `SimpleBLEKeyboardService` -/

/-- `SimpleBLEKeyboardService._char_to_hid_code` (lines 346-358); the
logic is character-for-character that of `BK.char_to_hid_code`. -/
def char_to_hid_code (ch : String) : Except PyErr (Option Nat) :=
  let char_upper := pyUpper ch
  if pyStrLe "A" char_upper && pyStrLe char_upper "Z" then do
    let n ← pyOrd char_upper
    return some (n - 65 + 4)
  else if pyStrLe "0" ch && pyStrLe ch "9" then
    if ch = "0" then return some 39
    else do
      let n ← pyOrd ch
      return some (n - 48 + 30)
  else
    return BK.special_chars ch

/-- The modifier computed by `SimpleBLEKeyboardService.send_character`
(lines 414-416), identical text to the bleak variant. -/
def send_modifier (ch : String) : Nat :=
  if pyIsUpperStr ch || pyInStr ch BK.shiftedPunctuation then 2 else 0

/-- The `BluetoothDeviceInfo` dataclass (name and address; the opaque
backend handle is irrelevant to the properties studied). -/
structure BluetoothDeviceInfo where
  name : String
  address : String
deriving Repr, DecidableEq

/-- `SimpleBLEKeyboardService._on_device_found` (lines 146-206).  The
attribute-probing chains (lines 150-185) reduce to: a name and an address
string are extracted from the backend device, each remaining `"Unknown"`
when every probe fails; an empty extracted name is replaced by
`"Unknown"` through the `name or "Unknown"` at line 197.  Devices whose
address could not be resolved are discarded (line 187-189), as is any
device whose address is already present in `scanned_devices`
(lines 191-194); otherwise the record is appended. -/
def on_device_found (scanned : List BluetoothDeviceInfo) (name address : String) :
    List BluetoothDeviceInfo :=
  if address == "Unknown" then scanned
  else if scanned.any (fun existing => existing.address == address) then scanned
  else scanned ++ [{ name := if name == "" then "Unknown" else name, address := address }]

/-- The mutable fields of `SimpleBLEKeyboardService` relevant to
`disconnect`. -/
structure SBState where
  peripheral : Bool
  is_connected : Bool
  connected_device : Bool
  report_characteristic : Bool
deriving Repr, DecidableEq

/-- `SimpleBLEKeyboardService.disconnect` (lines 332-344).  The backend
call may raise; the `except` clause logs it and the `finally` clause
resets every field unconditionally, so the call never propagates an
exception.  Returns the new state and the log entries emitted. -/
def disconnect (st : SBState) (backendRaises : Bool) : SBState × List String :=
  let logs := if st.peripheral && backendRaises then ["Disconnect error"] else []
  ({ peripheral := false, is_connected := false, connected_device := false,
     report_characteristic := false }, logs)

/-- A SimpleBLE characteristic as probed by `connect` (lines 291-308):
its UUID string and the value of `char.can_write()`, a boolean in the
backend surface this code probes. -/
structure SChar where
  uuid : String
  can_write : Bool
deriving Repr, DecidableEq

/-- A SimpleBLE service. -/
structure SService where
  uuid : String
  characteristics : List SChar
deriving Repr, DecidableEq

/-- Line 280: `"1812" in service_uuid or "hid" in service_uuid.lower()`
(with `service_uuid` already lowercased at line 273). -/
def isHidService (s : SService) : Bool :=
  pyInStr "1812" (pyLower s.uuid) || pyInStr "hid" (pyLower (pyLower s.uuid))

/-- Lines 300-310 predicate: UUID contains `"2a4d"` or `"report"`, and
`"write"` occurs in `str(char.can_write()).lower()` — note that for a
boolean `can_write` this second test compares against `"true"`/`"false"`
and never succeeds. -/
def charMatch (c : SChar) : Bool :=
  (pyInStr "2a4d" (pyLower c.uuid) || pyInStr "report" (pyLower (pyLower c.uuid)))
    && pyInStr "write" (pyLower (pyStrOfBool c.can_write))

/-- The resolver inside `SimpleBLEKeyboardService.connect`
(lines 269-317): services are walked in order; inside each service whose
UUID matches the HID patterns the first characteristic satisfying
`charMatch` is selected; a HID-matching service with no such
characteristic does NOT stop the walk.  `none` means the connect falls
through to the degraded branch of lines 318-324. -/
def resolveReportChar : List SService → Option SChar
  | [] => none
  | s :: rest =>
    if isHidService s then
      match s.characteristics.find? charMatch with
      | some c => some c
      | none => resolveReportChar rest
    else resolveReportChar rest

end SB

/-! ## Joint peer model for comparing the two connection paths

The spec (§4.2) describes a peer as services with characteristics carrying
a UUID and two writability flags.  `PeerCharacteristic`/`PeerService` is
that common description; `toGatt`/`toS` render it into what each backend's
probing sees: bleak exposes a `properties` list containing `"write"` /
`"write-without-response"` for the corresponding flags, SimpleBLE exposes
a boolean `can_write()`. -/

/-- A backend-independent description of one peer characteristic. -/
structure PeerCharacteristic where
  uuid : String
  canWriteWithResponse : Bool
  canWriteWithoutResponse : Bool
  handle : Int
deriving Repr, DecidableEq

/-- A backend-independent description of one peer service. -/
structure PeerService where
  uuid : String
  characteristics : List PeerCharacteristic
deriving Repr, DecidableEq

/-- The bleak view of a peer characteristic. -/
def PeerCharacteristic.toGatt (c : PeerCharacteristic) : BK.GattCharacteristic :=
  { uuid := c.uuid,
    properties :=
      (if c.canWriteWithResponse then ["write"] else [])
        ++ (if c.canWriteWithoutResponse then ["write-without-response"] else []),
    handle := c.handle }

/-- The bleak view of a peer service. -/
def PeerService.toGatt (s : PeerService) : BK.GattService :=
  { uuid := s.uuid, characteristics := s.characteristics.map (·.toGatt) }

/-- The SimpleBLE view of a peer characteristic: `can_write()` holds when
the characteristic is writable in either mode. -/
def PeerCharacteristic.toS (c : PeerCharacteristic) : SB.SChar :=
  { uuid := c.uuid, can_write := c.canWriteWithResponse || c.canWriteWithoutResponse }

/-- The SimpleBLE view of a peer service. -/
def PeerService.toS (s : PeerService) : SB.SService :=
  { uuid := s.uuid, characteristics := s.characteristics.map (·.toS) }

/-! ## Spec-side vocabulary

These definitions follow the specification's words (not the code) and are
used to state the claims and compare them with the embedded code. -/

/-- The KeyMapping domain as listed by the spec (§3): A-Z
(case-insensitive), 0-9, space, newline/carriage-return, tab, and the
punctuation set. -/
def specKeyDomain (c : Char) : Bool :=
  (65 ≤ c.toNat && c.toNat ≤ 90) || (97 ≤ c.toNat && c.toNat ≤ 122)
    || (48 ≤ c.toNat && c.toNat ≤ 57)
    || c == ' ' || c == '\n' || c == '\r' || c == '\t'
    || c == '-' || c == '=' || c == '[' || c == ']' || c == '\\' || c == ';'
    || c == Char.ofNat 39 || c == Char.ofNat 96 || c == ',' || c == '.' || c == '/'

/-- The shifted-punctuation set as listed by the claims and spec (§4.1). -/
def claimShiftedSet : List Char :=
  ['!', '@', '#', '$', '%', '^', '&', '*', '(', ')', '_', '+',
   Char.ofNat 123, Char.ofNat 125, '|', ':', Char.ofNat 34, '<', '>', '?']

/-- The primary-step characteristic condition as worded by the amended
claim for the resolver: UUID (lowercased) contains `"report"`, `"2a4d"`
or `"2a4b"`, and the characteristic is writable with or without
response. -/
def specPrimaryCond (c : BK.GattCharacteristic) : Bool :=
  (pyInStr "report" (pyLower c.uuid) || pyInStr "2a4d" (pyLower c.uuid)
      || pyInStr "2a4b" (pyLower c.uuid))
    && (c.properties.contains "write" || c.properties.contains "write-without-response")

/-- The fallback-step characteristic condition as worded by the amended
claim: UUID (lowercased) contains `"report"` or `"2a4d"`; writability is
NOT required. -/
def specFallbackCond (c : BK.GattCharacteristic) : Bool :=
  pyInStr "report" (pyLower c.uuid) || pyInStr "2a4d" (pyLower c.uuid)

/-- The resolver as described by the amended claim: the first service
whose UUID contains the full 128-bit HID service UUID wins; inside it the
first characteristic satisfying `specPrimaryCond` is chosen; only when no
such service exists are all characteristics scanned in order for
`specFallbackCond`. -/
def specResolver (services : List BK.GattService) : Option Int :=
  match services.find? (fun s => pyInStr (pyLower BK.HID_SERVICE_UUID) (pyLower s.uuid)) with
  | some svc => (svc.characteristics.find? specPrimaryCond).map (·.handle)
  | none => ((services.flatMap (·.characteristics)).find? specFallbackCond).map (·.handle)

/-- A demonstration peer: the spec's §8 happy-path scenario, a standard
HID service `1812` holding the standard report characteristic `2a4d`,
writable without response, with handle 7. -/
def demoPeer : List BK.GattService :=
  [{ uuid := "00001812-0000-1000-8000-00805f9b34fb",
     characteristics := [{ uuid := "00002a4d-0000-1000-8000-00805f9b34fb",
                           properties := ["write-without-response"], handle := 7 }] }]

/-- The session state after connecting to `demoPeer`. -/
def demoConnectedState : BK.ServiceState :=
  (BK.connect BK.initialState demoPeer).1

/-- Whether a peer exposes no writable characteristic at all (the
condition under which a degraded session's `send_key` can deliver
nothing). -/
def noWritableChar (services : List BK.GattService) : Bool :=
  services.all (fun s => s.characteristics.all (fun c => !BK.writableProp c))

/-- The spec's §8 happy-path peer in the backend-independent description:
an `1812` service holding a `2a4d` characteristic that is writable
without response, handle 7. -/
def demoPeerAbstract : List PeerService :=
  [{ uuid := "00001812-0000-1000-8000-00805f9b34fb",
     characteristics := [{ uuid := "00002a4d-0000-1000-8000-00805f9b34fb",
                           canWriteWithResponse := false, canWriteWithoutResponse := true,
                           handle := 7 }] }]

/-! ## Helper lemmas -/

theorem pyListLe_single {a b : Char} : pyListLe [a] [b] = true ↔ a.toNat ≤ b.toNat := by
  unfold pyListLe
  split
  · rename_i hlt
    simp only [true_iff]
    omega
  · rename_i hlt
    split
    · rename_i hgt
      simp only [Bool.false_eq_true, false_iff]
      omega
    · rename_i hgt
      simp only [pyListLe, true_iff]
      omega

/-- The `special_chars` table only holds values between 40 and 56. -/
theorem specialCharLookup_bound {c : Char} {k : Nat}
    (h : BK.specialCharLookup c = some k) : 40 ≤ k ∧ k ≤ 56 := by
  unfold BK.specialCharLookup at h
  rw [Option.map_eq_some'] at h
  obtain ⟨p, hp, hk⟩ := h
  have hmem := List.mem_of_find?_eq_some hp
  have hall : ∀ p ∈ BK.special_pairs, 40 ≤ p.2 ∧ p.2 ≤ 56 := by decide
  have := hall p hmem
  omega

/-- Bound for the string-level dict lookup. -/
theorem special_chars_bound {s : String} {k : Nat}
    (h : BK.special_chars s = some k) : 40 ≤ k ∧ k ≤ 56 := by
  unfold BK.special_chars at h
  rcases hs : s.data with _ | ⟨c, _ | ⟨c2, t2⟩⟩ <;> rw [hs] at h
  · simp at h
  · exact specialCharLookup_bound h
  · simp at h

/-- Every keycode produced by `_char_to_hid_code` lies between 4 and 56:
letters give 4..29, digits 30..39, the special table 40..56. -/
theorem char_to_hid_code_bound {s : String} {k : Nat}
    (h : BK.char_to_hid_code s = .ok (some k)) : 4 ≤ k ∧ k ≤ 56 := by
  simp only [BK.char_to_hid_code] at h
  split at h
  · rename_i hg
    rw [Bool.and_eq_true] at hg
    obtain ⟨hg1, hg2⟩ := hg
    rcases hu : (pyUpper s).data with _ | ⟨c, _ | ⟨c2, t2⟩⟩
    · have hord : pyOrd (pyUpper s) = .error .typeError := by
        unfold pyOrd
        rw [hu]
      rw [hord] at h
      simp [bind, Except.bind] at h
    · have hord : pyOrd (pyUpper s) = .ok c.toNat := by
        unfold pyOrd
        rw [hu]
      rw [hord] at h
      simp only [bind, Except.bind, pure, Except.pure, Except.ok.injEq,
        Option.some.injEq] at h
      have hA : ("A" : String).data = [Char.ofNat 65] := rfl
      have hZ : ("Z" : String).data = [Char.ofNat 90] := rfl
      unfold pyStrLe at hg1 hg2
      rw [hA, hu] at hg1
      rw [hZ, hu] at hg2
      have h1 := pyListLe_single.mp hg1
      have h2 := pyListLe_single.mp hg2
      rw [show (Char.ofNat 65).toNat = 65 from rfl] at h1
      rw [show (Char.ofNat 90).toNat = 90 from rfl] at h2
      omega
    · have hord : pyOrd (pyUpper s) = .error .typeError := by
        unfold pyOrd
        rw [hu]
      rw [hord] at h
      simp [bind, Except.bind] at h
  · split at h
    · rename_i hg
      rw [Bool.and_eq_true] at hg
      obtain ⟨hg1, hg2⟩ := hg
      split at h
      · simp only [pure, Except.pure, Except.ok.injEq, Option.some.injEq] at h
        omega
      · rcases hs : s.data with _ | ⟨c, _ | ⟨c2, t2⟩⟩
        · have hord : pyOrd s = .error .typeError := by
            unfold pyOrd
            rw [hs]
          rw [hord] at h
          simp [bind, Except.bind] at h
        · have hord : pyOrd s = .ok c.toNat := by
            unfold pyOrd
            rw [hs]
          rw [hord] at h
          simp only [bind, Except.bind, pure, Except.pure, Except.ok.injEq,
            Option.some.injEq] at h
          have h0 : ("0" : String).data = [Char.ofNat 48] := rfl
          have h9 : ("9" : String).data = [Char.ofNat 57] := rfl
          unfold pyStrLe at hg1 hg2
          rw [h0, hs] at hg1
          rw [h9, hs] at hg2
          have h1 := pyListLe_single.mp hg1
          have h2 := pyListLe_single.mp hg2
          rw [show (Char.ofNat 48).toNat = 48 from rfl] at h1
          rw [show (Char.ofNat 57).toNat = 57 from rfl] at h2
          omega
        · have hord : pyOrd s = .error .typeError := by
            unfold pyOrd
            rw [hs]
          rw [hord] at h
          simp [bind, Except.bind] at h
    · simp only [pure, Except.pure, Except.ok.injEq] at h
      have := special_chars_bound h
      omega

/-- `send_modifier` only ever produces 0 or 2. -/
theorem send_modifier_le {ch : String} : BK.send_modifier ch ≤ 2 := by
  unfold BK.send_modifier
  split <;> omega

/-- Every ASCII character outside the spec's KeyMapping domain is mapped
to `None` by `_char_to_hid_code`. -/
theorem codec_none_of_ascii_nondomain :
    ∀ n, n < 128 → specKeyDomain (Char.ofNat n) = false →
      BK.char_to_hid_code (String.singleton (Char.ofNat n)) = .ok none := by
  decide

set_option maxRecDepth 4096 in
/-- Every character inside the spec's KeyMapping domain is mapped to a
keycode by `_char_to_hid_code`. -/
theorem codec_some_of_domain :
    ∀ n, n < 128 → specKeyDomain (Char.ofNat n) = true →
      ∃ k, k < 57 ∧ BK.char_to_hid_code (String.singleton (Char.ofNat n)) = .ok (some k) := by
  decide

/-- C2: the digit branch of `_char_to_hid_code` computes
`ord(char) - ord('0') + 30`, so '1' yields 31 (the claim and the USB HID
usage table say 30), '9' yields 39 — colliding with the special-cased
'0' → 39; additionally the non-ASCII character ı (U+0131), whose Python
uppercase is the ASCII letter 'I', is mapped to keycode 12 instead of the
claimed `None`. -/
theorem charToHidCode_digit_mapping_bug :
    BK.char_to_hid_code "1" = .ok (some 31) ∧
    BK.char_to_hid_code "9" = .ok (some 39) ∧
    BK.char_to_hid_code "0" = .ok (some 39) ∧
    BK.char_to_hid_code (String.singleton (Char.ofNat 0x131)) = .ok (some 12) := by
  decide

/-- C3: for each of the 26 letters, the uppercase form (code 65+n) and
the lowercase form (code 97+n) get the same keycode, the uppercase gets
modifier 2 (Left Shift) and the lowercase modifier 0; and over all ASCII
characters the modifier is 2 exactly for uppercase letters and the
shifted-punctuation set. -/
theorem codec_case_insensitivity_and_shift :
    (∀ n, n < 26 →
      BK.char_to_hid_code (String.singleton (Char.ofNat (65 + n))) =
        BK.char_to_hid_code (String.singleton (Char.ofNat (97 + n))) ∧
      BK.char_to_hid_code (String.singleton (Char.ofNat (65 + n))) = .ok (some (4 + n)) ∧
      BK.send_modifier (String.singleton (Char.ofNat (65 + n))) = 2 ∧
      BK.send_modifier (String.singleton (Char.ofNat (97 + n))) = 0) ∧
    (∀ n, n < 128 →
      (BK.send_modifier (String.singleton (Char.ofNat n)) = 2 ↔
        (65 ≤ n ∧ n ≤ 90) ∨ Char.ofNat n ∈ claimShiftedSet)) := by
  constructor
  · decide
  · decide

/-- Witness for `codec_case_insensitivity_and_shift` at 'A'/'a'. -/
theorem codec_case_insensitivity_and_shift_witness :
    BK.char_to_hid_code (String.singleton (Char.ofNat 65)) =
      BK.char_to_hid_code (String.singleton (Char.ofNat 97)) ∧
    BK.send_modifier (String.singleton (Char.ofNat 65)) = 2 ∧
    BK.send_modifier (String.singleton (Char.ofNat 97)) = 0 :=
  ⟨(codec_case_insensitivity_and_shift.1 0 (by decide)).1,
   (codec_case_insensitivity_and_shift.1 0 (by decide)).2.2.1,
   (codec_case_insensitivity_and_shift.1 0 (by decide)).2.2.2⟩

/-- C7 counterexample: ı (U+0131) is a single character outside the
KeyMapping domain, yet `send_character` on a connected session emits two
transport writes for it (its Python uppercase is 'I', so the letter
branch maps it to keycode 12) instead of the claimed zero writes. -/
theorem send_character_dotless_i_counterexample :
    specKeyDomain (Char.ofNat 0x131) = false ∧
    BK.send_character demoConnectedState (String.singleton (Char.ofNat 0x131)) =
      .ok (demoConnectedState,
        [([0, 0, 12, 0, 0, 0, 0, 0], false), ([0, 0, 0, 0, 0, 0, 0, 0], false)], []) := by
  constructor
  · decide
  · decide

/-- C7 (amended): for every single ASCII character outside the KeyMapping
domain — including the shifted-punctuation characters and, beyond ASCII,
'€' — `send_character` performs zero transport writes, emits the
unsupported-character diagnostic, leaves the state untouched and returns
normally (some non-ASCII characters behave differently, e.g. ı). -/
theorem send_character_skips_unsupported_ascii (st : BK.ServiceState) (n : Nat)
    (hn : n < 128) (hdom : specKeyDomain (Char.ofNat n) = false) :
    BK.send_character st (String.singleton (Char.ofNat n)) =
      .ok (st, [], ["Unsupported character: " ++ String.singleton (Char.ofNat n)]) := by
  have hcodec := codec_none_of_ascii_nondomain n hn hdom
  unfold BK.send_character
  rw [show ((String.singleton (Char.ofNat n)).length == 0) = false from rfl]
  simp only [Bool.false_eq_true, if_false, hcodec, bind, Except.bind, pure, Except.pure]

/-- Witness for `send_character_skips_unsupported_ascii` at '!' (code 33)
on the demonstration connected session. -/
theorem send_character_skips_unsupported_ascii_witness :
    BK.send_character demoConnectedState (String.singleton (Char.ofNat 33)) =
      .ok (demoConnectedState, [], ["Unsupported character: " ++ String.singleton (Char.ofNat 33)]) :=
  send_character_skips_unsupported_ascii demoConnectedState 33 (by decide) (by decide)

/-- The '€' instance named by the claim: outside ASCII as well, the
behaviour claimed for unsupported characters does hold at '€'. -/
theorem send_character_euro_skipped (st : BK.ServiceState) :
    BK.send_character st (String.singleton (Char.ofNat 0x20AC)) =
      .ok (st, [], ["Unsupported character: " ++ String.singleton (Char.ofNat 0x20AC)]) := by
  unfold BK.send_character
  rw [show ((String.singleton (Char.ofNat 0x20AC)).length == 0) = false from rfl]
  rw [show BK.char_to_hid_code (String.singleton (Char.ofNat 0x20AC)) = .ok none from rfl]
  simp only [Bool.false_eq_true, if_false, bind, Except.bind, pure, Except.pure]

/-- C10: `send_character` is guarded on the empty string (zero writes, no
diagnostic, normal return) but is not total beyond length-1 strings: on
"ab" the uppercased string "AB" passes the letter-branch comparison
`'A' <= "AB" <= 'Z'` and `ord("AB")` raises `TypeError`, which
propagates out of `send_character`. -/
theorem send_character_multichar_raises (st : BK.ServiceState) :
    BK.send_character st "" = .ok (st, [], []) ∧
    BK.send_character st "ab" = .error .typeError := by
  constructor
  · rfl
  · rfl

/-- On a session whose resolved characteristic is present and writable,
`send_key` leaves the state unchanged, succeeds, and submits exactly one
report, using write-without-response when that property is present and
write-with-response otherwise. -/
theorem send_key_good (st : BK.ServiceState) (key mod : Nat) (hv : Int)
    (c : BK.GattCharacteristic)
    (hconn : st.is_connected = true) (hcl : st.client = true)
    (hcc : st.client_connected = true)
    (hh : st.report_char_handle = some hv) (hv0 : hv ≠ 0)
    (hfind : BK.findByHandle st.services hv = some c)
    (hw : BK.writableProp c = true)
    (hk : key ≤ 255) (hm : mod ≤ 255) :
    BK.send_key st key mod =
      (st, true,
        [([mod, 0, key, 0, 0, 0, 0, 0], !(c.properties.contains "write-without-response"))]) := by
  have hbeq : (hv == 0) = false := by
    simp [hv0]
  unfold BK.send_key
  rw [hconn, hcl, hcc]
  simp only [Bool.not_true, Bool.or_self, Bool.false_eq_true, if_false]
  rw [hh]
  simp only [BK.handleTruthy, hbeq, Bool.not_false, Bool.not_true, Bool.false_eq_true, if_false]
  rw [hh]
  simp only [hbeq, Bool.false_eq_true, if_false]
  rw [show BK.create_hid_report key mod = .ok [mod, 0, key, 0, 0, 0, 0, 0] by
    unfold BK.create_hid_report
    simp [hk, hm]]
  rw [hfind]
  by_cases hwwr : c.properties.contains "write-without-response" = true
  · simp only [hwwr, if_true, Bool.not_true]
  · have hwr : c.properties.contains "write" = true := by
      unfold BK.writableProp at hw
      rw [Bool.or_eq_true] at hw
      rcases hw with hw | hw
      · exact hw
      · exact absurd hw hwwr
    rw [Bool.not_eq_true] at hwwr
    simp only [hwwr, Bool.false_eq_true, if_false, hwr, if_true, Bool.not_false]

/-- C1: for any character whose keycode lookup succeeds (in particular
every character of the KeyMapping domain), on a connected session whose
resolved characteristic is present and writable, `send_character` submits
exactly two 8-byte reports in order: first the press report
`[modifier, 0, keycode, 0, 0, 0, 0, 0]` with a non-zero keycode, then the
all-zero release report; the trace order is the submission order, so the
press is fully submitted before the release. -/
theorem send_character_press_release (st : BK.ServiceState) (ch : Char) (k : Nat)
    (hv : Int) (c : BK.GattCharacteristic)
    (hconn : st.is_connected = true) (hcl : st.client = true)
    (hcc : st.client_connected = true)
    (hh : st.report_char_handle = some hv) (hv0 : hv ≠ 0)
    (hfind : BK.findByHandle st.services hv = some c)
    (hw : BK.writableProp c = true)
    (hcodec : BK.char_to_hid_code (String.singleton ch) = .ok (some k)) :
    BK.send_character st (String.singleton ch) =
      .ok (st,
        [([BK.send_modifier (String.singleton ch), 0, k, 0, 0, 0, 0, 0],
            !(c.properties.contains "write-without-response")),
         ([0, 0, 0, 0, 0, 0, 0, 0], !(c.properties.contains "write-without-response"))],
        []) ∧
    k ≠ 0 := by
  have hk := char_to_hid_code_bound hcodec
  have hm : BK.send_modifier (String.singleton ch) ≤ 2 := send_modifier_le
  constructor
  · unfold BK.send_character
    rw [show ((String.singleton ch).length == 0) = false from rfl]
    simp only [Bool.false_eq_true, if_false, hcodec, bind, Except.bind]
    rw [send_key_good st k (BK.send_modifier (String.singleton ch)) hv c hconn hcl hcc hh hv0
      hfind hw (by omega) (by omega)]
    rw [send_key_good st 0 0 hv c hconn hcl hcc hh hv0 hfind hw (by omega) (by omega)]
    rfl
  · omega

/-- Witness for `send_character_press_release`: the character 'a' on the
demonstration session connected to the spec's §8 happy-path peer. -/
theorem send_character_press_release_witness :
    BK.send_character demoConnectedState (String.singleton 'a') =
      .ok (demoConnectedState,
        [([0, 0, 4, 0, 0, 0, 0, 0], false), ([0, 0, 0, 0, 0, 0, 0, 0], false)], []) ∧
    (4 : Nat) ≠ 0 := by
  have h := send_character_press_release demoConnectedState 'a' 4 7
    { uuid := "00002a4d-0000-1000-8000-00805f9b34fb",
      properties := ["write-without-response"], handle := 7 }
    (by decide) (by decide) (by decide) (by decide) (by decide) (by decide) (by decide) (by decide)
  exact h

/-- The nested fallback loop equals a single ordered scan over the
flattened characteristic list. -/
theorem fallbackScan_eq_flat (ss : List BK.GattService) :
    BK.fallbackScan ss = (ss.flatMap (·.characteristics)).find? specFallbackCond := by
  induction ss with
  | nil => rfl
  | cons s rest ih =>
    show (match s.characteristics.find? BK.fallbackCharMatch with
      | some c => some c
      | none => BK.fallbackScan rest) = _
    rw [List.flatMap_cons, List.find?_append]
    cases hf : s.characteristics.find? BK.fallbackCharMatch with
    | some c =>
      rw [show s.characteristics.find? specFallbackCond = some c from hf]
      rfl
    | none =>
      rw [show s.characteristics.find? specFallbackCond = none from hf]
      simpa using ih

/-- Case description of the resolved handle after `connect`: the
first-match result of the primary scan inside the first full-UUID HID
service when one exists, the first-match result of the fallback scan
otherwise, and the prior handle when the used scan misses. -/
theorem connect_handle (st : BK.ServiceState) (ss : List BK.GattService) :
    (BK.connect st ss).1.report_char_handle =
      (match ss.find? BK.isHidService with
       | some svc =>
         match svc.characteristics.find? BK.primaryCharMatch with
         | some c => some c.handle
         | none => st.report_char_handle
       | none =>
         match BK.fallbackScan ss with
         | some c => some c.handle
         | none => st.report_char_handle) := by
  unfold BK.connect
  rcases h1 : ss.find? BK.isHidService with _ | svc
  · rcases h2 : BK.fallbackScan ss with _ | c
    · simp [h1, h2]
    · simp [h1, h2]
  · rcases h2 : svc.characteristics.find? BK.primaryCharMatch with _ | c
    · simp [h1, h2]
    · simp [h1, h2]

/-- C4 counterexample, two parts: (a) with no standard-HID service, the
fallback accepts a characteristic that is NOT writable (empty properties
list), contradicting the claim's "must also be writable"; (b) inside a
standard `1812` service the code also accepts a characteristic whose
UUID merely contains "report" and matches neither `2a4d` nor `2a4b`,
contradicting "a characteristic whose UUID matches 2a4d or 2a4b". -/
theorem connect_resolver_counterexample :
    ((BK.connect BK.initialState
        [{ uuid := "0000aaaa",
           characteristics := [{ uuid := "vendor-report-x", properties := [],
                                 handle := 5 }] }]).1.report_char_handle = some 5
      ∧ BK.writableProp { uuid := "vendor-report-x", properties := [], handle := 5 } = false) ∧
    ((BK.connect BK.initialState
        [{ uuid := "00001812-0000-1000-8000-00805f9b34fb",
           characteristics := [{ uuid := "0000beef-vendor-report", properties := ["write"],
                                 handle := 9 }] }]).1.report_char_handle = some 9
      ∧ pyInStr "2a4d" (pyLower "0000beef-vendor-report") = false
      ∧ pyInStr "2a4b" (pyLower "0000beef-vendor-report") = false) := by
  constructor
  · constructor
    · decide
    · decide
  · refine ⟨by decide, by decide, by decide⟩

/-- C4 (amended): from a fresh state, the resolution performed by
`connect` is the ordered, first-match-wins algorithm: the first service
whose UUID contains the full 128-bit HID service UUID is searched for the
first characteristic whose UUID contains "report", "2a4d" or "2a4b" AND
which is writable; only when no such service exists are all services'
characteristics scanned in order for a UUID containing "report" or
"2a4d", with NO writability requirement.  Consequently, on a peer
exposing both an unrelated "report"-substring characteristic and a
standard-UUID HID characteristic, the standard one (handle 7) is
selected. -/
theorem connect_resolver_amended (services : List BK.GattService) :
    (BK.connect BK.initialState services).1.report_char_handle = specResolver services ∧
    (BK.connect BK.initialState
      [{ uuid := "0000ffff",
         characteristics := [{ uuid := "custom-report-char", properties := ["write"],
                               handle := 99 }] },
       { uuid := "00001812-0000-1000-8000-00805f9b34fb",
         characteristics := [{ uuid := "00002a4d-0000-1000-8000-00805f9b34fb",
                               properties := ["write-without-response"],
                               handle := 7 }] }]).1.report_char_handle = some 7 := by
  refine ⟨?_, by decide⟩
  rw [connect_handle]
  unfold specResolver
  rw [← fallbackScan_eq_flat]
  rw [show (fun s => pyInStr (pyLower BK.HID_SERVICE_UUID) (pyLower s.uuid))
      = BK.isHidService from rfl]
  rcases h1 : services.find? BK.isHidService with _ | svc
  · simp only [h1]
    rcases h2 : BK.fallbackScan services with _ | c
    · simp [h2, BK.initialState]
    · simp [h2]
  · simp only [h1]
    rw [show svc.characteristics.find? specPrimaryCond
        = svc.characteristics.find? BK.primaryCharMatch from rfl]
    rcases h2 : svc.characteristics.find? BK.primaryCharMatch with _ | c
    · simp [h2, BK.initialState]
    · simp [h2]

/-- With the transport link established, `connect` always reports success
and a Connected state (independent of resolution), leaving the client
flags set and the service table stored. -/
theorem connect_success (st : BK.ServiceState) (ss : List BK.GattService) :
    (BK.connect st ss).2 = true ∧
    (BK.connect st ss).1.is_connected = true ∧
    (BK.connect st ss).1.client = true ∧
    (BK.connect st ss).1.client_connected = true ∧
    (BK.connect st ss).1.services = ss := by
  unfold BK.connect
  rcases h1 : ss.find? BK.isHidService with _ | svc
  · rcases h2 : BK.fallbackScan ss with _ | c <;> simp [h1, h2]
  · rcases h2 : svc.characteristics.find? BK.primaryCharMatch with _ | c <;> simp [h1, h2]

/-- When the peer exposes no writable characteristic, the dynamic
discovery loop of `send_key` leaves the absent handle absent. -/
theorem dynamicDiscovery_none {ss : List BK.GattService}
    (h : noWritableChar ss = true) : BK.dynamicDiscovery ss none = none := by
  induction ss with
  | nil => rfl
  | cons s rest ih =>
    unfold noWritableChar at h
    rw [List.all_cons, Bool.and_eq_true] at h
    obtain ⟨hs, hrest⟩ := h
    have hfind : s.characteristics.find? BK.writableProp = none := by
      rw [List.find?_eq_none]
      intro c hc
      have hw := List.all_eq_true.mp hs c hc
      simp only [Bool.not_eq_true'] at hw
      simp [hw]
    unfold BK.dynamicDiscovery
    rw [hfind]
    simp only [BK.handleTruthy, Bool.false_eq_true, if_false]
    exact ih hrest

/-- C5 (amended): when the link comes up but nothing matches the HID
patterns, `connect` still returns success with a Connected state and no
resolved characteristic; on that degraded session a subsequent `send_key`
first searches the peer for ANY writable characteristic, and only when
none exists at all does it fail, delivering nothing. -/
theorem degraded_connect_then_write (services : List BK.GattService) (key mod : Nat)
    (hres : (BK.connect BK.initialState services).1.report_char_handle = none)
    (hnw : noWritableChar services = true) :
    (BK.connect BK.initialState services).2 = true ∧
    (BK.connect BK.initialState services).1.is_connected = true ∧
    (BK.send_key (BK.connect BK.initialState services).1 key mod).2 = (false, []) := by
  obtain ⟨h2, hic, hcl, hcc, hsv⟩ := connect_success BK.initialState services
  refine ⟨h2, hic, ?_⟩
  unfold BK.send_key
  rw [hic, hcl, hcc]
  simp only [Bool.not_true, Bool.or_self, Bool.false_eq_true, if_false]
  rw [hres]
  simp only [BK.handleTruthy, Bool.not_false, if_true]
  rw [hsv]
  rw [dynamicDiscovery_none hnw]

/-- Witness for `degraded_connect_then_write`: a peer with one unrelated,
non-writable characteristic. -/
theorem degraded_connect_then_write_witness :
    (BK.connect BK.initialState
        [{ uuid := "0000ffff",
           characteristics := [{ uuid := "0000cccc", properties := ["notify"],
                                 handle := 3 }] }]).2 = true ∧
    (BK.connect BK.initialState
        [{ uuid := "0000ffff",
           characteristics := [{ uuid := "0000cccc", properties := ["notify"],
                                 handle := 3 }] }]).1.is_connected = true ∧
    (BK.send_key (BK.connect BK.initialState
        [{ uuid := "0000ffff",
           characteristics := [{ uuid := "0000cccc", properties := ["notify"],
                                 handle := 3 }] }]).1 4 0).2 = (false, []) :=
  degraded_connect_then_write
    [{ uuid := "0000ffff",
       characteristics := [{ uuid := "0000cccc", properties := ["notify"], handle := 3 }] }]
    4 0 (by decide) (by decide)

/-- C5 counterexample: a peer matching no HID pattern but exposing one
unrelated writable characteristic (handle 9).  `connect` is degraded (no
characteristic resolved), yet the next `send_key` dynamically adopts the
unrelated characteristic, writes the report to it and returns success —
it does not fail with the no-HID-characteristic condition. -/
theorem degraded_write_counterexample :
    (BK.connect BK.initialState
        [{ uuid := "0000ffff",
           characteristics := [{ uuid := "0000bbbb", properties := ["write"],
                                 handle := 9 }] }]).1.report_char_handle = none ∧
    (BK.send_key (BK.connect BK.initialState
        [{ uuid := "0000ffff",
           characteristics := [{ uuid := "0000bbbb", properties := ["write"],
                                 handle := 9 }] }]).1 4 0).2
      = (true, [([0, 0, 4, 0, 0, 0, 0, 0], true)]) ∧
    (BK.send_key (BK.connect BK.initialState
        [{ uuid := "0000ffff",
           characteristics := [{ uuid := "0000bbbb", properties := ["write"],
                                 handle := 9 }] }]).1 4 0).1.report_char_handle = some 9 := by
  refine ⟨by decide, by decide, by decide⟩

/-- C6 (amended): the SimpleBLE `disconnect` resets the whole state
unconditionally — its backend call sits in a `try` whose `finally` runs
the reset and whose `except` swallows the raise — and is therefore
idempotent; the bleak `disconnect` resets the whole state and is
idempotent whenever its backend call does not raise, but it has no
such guard. -/
theorem disconnect_cleanup (bst : BK.ServiceState) (sst : SB.SBState) (r : Bool) :
    (SB.disconnect sst r).1 =
      { peripheral := false, is_connected := false, connected_device := false,
        report_characteristic := false } ∧
    (SB.disconnect (SB.disconnect sst r).1 r).1 = (SB.disconnect sst r).1 ∧
    (BK.disconnect bst false).2 = false ∧
    (BK.disconnect bst false).1 =
      { bst with client := false, client_connected := false, is_connected := false,
                 connected_device := false, report_char_handle := none } ∧
    BK.disconnect (BK.disconnect bst false).1 false = ((BK.disconnect bst false).1, false) := by
  refine ⟨rfl, rfl, ?_, ?_, ?_⟩
  · unfold BK.disconnect
    rcases hc : bst.client && bst.client_connected <;> simp [hc]
  · unfold BK.disconnect
    rcases hc : bst.client && bst.client_connected <;> simp [hc]
  · unfold BK.disconnect
    rcases hc : bst.client && bst.client_connected <;> simp [hc]

/-- C6 counterexample: on a live bleak link whose backend `disconnect()`
raises, the exception propagates before any cleanup line runs, so the
manager still reports Connected (and still holds the resolved
characteristic) after the disconnect was requested. -/
theorem disconnect_raise_counterexample :
    (BK.disconnect demoConnectedState true).2 = true ∧
    (BK.disconnect demoConnectedState true).1.is_connected = true ∧
    (BK.disconnect demoConnectedState true).1.report_char_handle = some 7 := by
  refine ⟨by decide, by decide, by decide⟩

/-- C8: `_on_device_found` keeps at most one record per address: it
preserves pairwise-distinct addresses on every invocation, and a sighting
of an already-recorded address — whatever name it carries — leaves the
result list unchanged, so the first-seen record with the first-seen name
is kept. -/
theorem scan_dedupe (scanned : List SB.BluetoothDeviceInfo) (name name2 address : String)
    (hnd : (scanned.map (·.address)).Nodup) :
    ((SB.on_device_found scanned name address).map (·.address)).Nodup ∧
    ((∃ e ∈ scanned, e.address = address) →
      SB.on_device_found scanned name2 address = scanned) := by
  unfold SB.on_device_found
  by_cases hu : (address == "Unknown") = true
  · simp only [hu, if_true]
    exact ⟨hnd, fun _ => by trivial⟩
  · simp only [Bool.not_eq_true] at hu
    simp only [hu, Bool.false_eq_true, if_false]
    by_cases ha : scanned.any (fun existing => existing.address == address) = true
    · simp only [ha, if_true]
      exact ⟨hnd, fun _ => by trivial⟩
    · simp only [Bool.not_eq_true] at ha
      simp only [ha, Bool.false_eq_true, if_false]
      constructor
      · rw [List.map_append, List.nodup_append]
        refine ⟨hnd, by simp, ?_⟩
        intro a hmem hsing
        simp only [List.map_cons, List.map_nil, List.mem_singleton] at hsing
        subst hsing
        rw [List.any_eq_false] at ha
        obtain ⟨e, he, hea⟩ := List.mem_map.mp hmem
        have := ha e he
        simp only [beq_iff_eq] at this
        exact this hea
      · intro hex
        obtain ⟨e, he, hea⟩ := hex
        rw [List.any_eq_false] at ha
        have := ha e he
        simp only [beq_iff_eq] at this
        exact absurd hea this

/-- Witness for `scan_dedupe`: one recorded device, re-sighted with a
different name. -/
theorem scan_dedupe_witness :
    ((SB.on_device_found [{ name := "Pad", address := "AA:BB" }] "X" "AA:BB").map
        (·.address)).Nodup ∧
    ((∃ e ∈ [({ name := "Pad", address := "AA:BB" } : SB.BluetoothDeviceInfo)],
        e.address = "AA:BB") →
      SB.on_device_found [{ name := "Pad", address := "AA:BB" }] "Y" "AA:BB" =
        [{ name := "Pad", address := "AA:BB" }]) :=
  scan_dedupe [{ name := "Pad", address := "AA:BB" }] "X" "Y" "AA:BB" (by decide)

/-- C9 counterexample: on the spec's §8 happy-path peer — an `1812`
service with a `2a4d` characteristic writable without response — the
bleak path resolves the characteristic (handle 7) while the SimpleBLE
path resolves none: its writability probe asks whether `"write"` occurs
in `str(char.can_write()).lower()`, which is `"true"` or `"false"` and
never contains `"write"`, and it has no all-services fallback. -/
theorem resolver_divergence_counterexample :
    (BK.connect BK.initialState
        (demoPeerAbstract.map PeerService.toGatt)).1.report_char_handle = some 7 ∧
    SB.resolveReportChar (demoPeerAbstract.map PeerService.toS) = none := by
  refine ⟨by decide, by decide⟩

/-- C9 (amended): the two connection-path variants compute identical
keycodes and identical modifiers for every input string, but their
resolver logic is NOT identical: there is a peer (the happy-path HID
peer) on which the bleak path resolves a report characteristic while the
SimpleBLE path resolves none. -/
theorem codec_identical_resolvers_differ :
    (∀ ch : String, SB.char_to_hid_code ch = BK.char_to_hid_code ch) ∧
    (∀ ch : String, SB.send_modifier ch = BK.send_modifier ch) ∧
    (∃ ps : List PeerService,
      (BK.connect BK.initialState (ps.map PeerService.toGatt)).1.report_char_handle ≠ none ∧
      SB.resolveReportChar (ps.map PeerService.toS) = none) :=
  ⟨fun _ => rfl, fun _ => rfl,
   ⟨demoPeerAbstract, by decide, by decide⟩⟩
